import Mathlib

/-!
Verification development for the StressSpec risk detection engine.

The definitions below are a shallow embedding of the Python sources of the
repository (src/src/...).  Pure functions become Lean functions, dictionaries
become association lists or update functions, exceptions become an explicit
error type, and machine text is modelled over ASCII character lists.  Each
definition carries a comment naming the Python source it embeds.
-/

set_option maxRecDepth 4000

/-! ## Text primitives (src/src/utils/text_normalizer.py and Python builtins)

Python string operations are modelled on ASCII text: str.lower, str.strip,
the substring operator, str.split and str.startswith.  The repository only
processes ASCII requirement documents, so the ASCII model is faithful on the
inputs the engine sees.
-/

/-- Whitespace class of Python: the default set stripped by str.strip and
matched by the regex class backslash-s (ASCII part). -/
def isWsChar (c : Char) : Bool :=
  c = ' ' || c = '\t' || c = '\n' || c = '\r' || c = '\x0b' || c = '\x0c'

/-- ASCII decimal digit, the regex class backslash-d. -/
def isDigitChar (c : Char) : Bool := '0' ≤ c && c ≤ '9'

/-- ASCII uppercase letter, the regex class A to Z. -/
def isUpperChar (c : Char) : Bool := 'A' ≤ c && c ≤ 'Z'

/-- ASCII lowercase letter; Python str.islower on a single ASCII character. -/
def isLowerChar (c : Char) : Bool := 'a' ≤ c && c ≤ 'z'

/-- Word character of the regex class backslash-w (ASCII part): letter,
digit or underscore. -/
def isWordChar (c : Char) : Bool :=
  isUpperChar c || isLowerChar c || isDigitChar c || c = '_'

/-- Python str.strip on a character list: drop leading and trailing
whitespace. -/
def pyStripL (l : List Char) : List Char :=
  ((l.dropWhile isWsChar).reverse.dropWhile isWsChar).reverse

/-- Python str.strip on a string. -/
def pyStrip (s : String) : String := String.mk (pyStripL s.toList)

/-- Python str.lower (ASCII model). -/
def lowerStr (s : String) : String := String.mk (s.toList.map Char.toLower)

/-- Python str.upper (ASCII model). -/
def upperStr (s : String) : String := String.mk (s.toList.map Char.toUpper)

/-- Bool test that the first list is a prefix of the second. -/
def isPrefL : List Char → List Char → Bool
  | [], _ => true
  | _ :: _, [] => false
  | a :: as, b :: bs => a = b && isPrefL as bs

/-- The Python substring operator (needle in haystack) on character lists. -/
def isSubstrL (needle : List Char) : List Char → Bool
  | [] => needle.isEmpty
  | c :: t => isPrefL needle (c :: t) || isSubstrL needle t

/-- The Python substring operator on strings. -/
def isSubstr (needle hay : String) : Bool := isSubstrL needle.toList hay.toList

/-- Python str.startswith on strings. -/
def pyStartsWith (pre s : String) : Bool := isPrefL pre.toList s.toList

/-- Number of words of Python str.split with no argument: the number of
maximal runs of non-whitespace characters. -/
def wordCount (l : List Char) : Nat :=
  (l.foldl
    (fun (st : Bool × Nat) c =>
      if isWsChar c then (false, st.2)
      else if st.1 then (true, st.2) else (true, st.2 + 1))
    (false, 0)).2

/-- TextNormalizer.normalize_text (src/src/utils/text_normalizer.py):
lowercase unless case sensitive, then strip. -/
def normalizeText (text : String) (caseSensitive : Bool) : String :=
  pyStrip (if caseSensitive then text else lowerStr text)

/-- TextNormalizer.contains_keywords (src/src/utils/text_normalizer.py):
collect, in configured order, every keyword whose normalized form occurs as a
substring of the normalized text; the original keyword strings are returned. -/
def containsKeywords (text : String) (keywords : List String)
    (caseSensitive : Bool) : List String :=
  let normalizedText := normalizeText text caseSensitive
  keywords.foldl
    (fun found keyword =>
      if isSubstr (normalizeText keyword caseSensitive) normalizedText then
        found ++ [keyword]
      else found)
    []

/-- Decimal digits of a natural number, fuel-driven so that it reduces in the
kernel; the fuel is always sufficient at call sites. -/
def natDigits : Nat → Nat → List Char
  | 0, _ => []
  | fuel + 1, n =>
    if n < 10 then [Char.ofNat (48 + n)]
    else natDigits fuel (n / 10) ++ [Char.ofNat (48 + n % 10)]

/-- Decimal representation of a natural number. -/
def natToStr (n : Nat) : String := String.mk (natDigits (n + 1) n)

/-- The Python format specifier 03d: decimal, left padded with zeros to at
least three characters. -/
def pad3 (n : Nat) : String :=
  let s := natToStr n
  if s.length < 3 then String.mk (List.replicate (3 - s.length) '0') ++ s
  else s

/-! ## Data model (src/src/models/risk.py, src/src/models/requirement.py) -/

/-- SeverityLevel (src/src/models/risk.py): ordered closed set of five
severities with integer values 1 to 5. -/
inductive SeverityLevel where
  | low
  | medium
  | high
  | critical
  | blocker
deriving DecidableEq, Repr

/-- SeverityLevel.value, also Risk.get_severity_score. -/
def severityValue : SeverityLevel → Nat
  | .low => 1
  | .medium => 2
  | .high => 3
  | .critical => 4
  | .blocker => 5

/-- The string values of the RiskCategory enum as literally defined in
src/src/models/risk.py lines 28 to 35: the source enum has exactly these six
members and no traceability or scope member. -/
def sourceRiskCategoryValues : List String :=
  ["ambiguity", "missing_detail", "security", "conflict", "performance",
   "availability"]

/-- RiskCategory as the detectors and the unit tests of the repository use
it: eight categories.  The enum in src/src/models/risk.py only defines the
first six members, while src/src/detectors/traceability_detector.py and
src/src/detectors/scope_detector.py return the traceability and scope members
and tests/unit/test_risk.py asserts all eight; the sourceRiskCategoryValues
definition above records the source enum for that comparison. -/
inductive RiskCategory where
  | ambiguity
  | missing_detail
  | security
  | conflict
  | performance
  | availability
  | traceability
  | scope
deriving DecidableEq, Repr

/-- RiskCategory.value. -/
def categoryValue : RiskCategory → String
  | .ambiguity => "ambiguity"
  | .missing_detail => "missing_detail"
  | .security => "security"
  | .conflict => "conflict"
  | .performance => "performance"
  | .availability => "availability"
  | .traceability => "traceability"
  | .scope => "scope"

/-- Requirement (src/src/models/requirement.py): id, first line number and
text. -/
structure Requirement where
  id : String
  line_number : Nat
  text : String
deriving DecidableEq, Repr

/-- Risk (src/src/models/risk.py): the fully populated risk record. -/
structure Risk where
  id : String
  category : RiskCategory
  severity : SeverityLevel
  description : String
  requirement_id : String
  line_number : Nat
  evidence : String
  suggestion : Option String := none
deriving DecidableEq, Repr

/-- Risk record as assembled inside a detector before the risk factory mints
the identifier (BaseRiskDetector.create_risk delegates identifier assignment
to RiskFactory, modelled separately by generateId): description, evidence,
severity name and optional suggestion. -/
structure RiskData where
  description : String
  evidence : String
  severity : String
  suggestion : Option String := none
deriving DecidableEq, Repr

/-! ## Risk identifier generator (src/src/utils/risk_id_generator.py)

The Python class keeps a dictionary from a string key to an integer counter;
it is modelled as a function from keys to counters, zero when the key was
never used, which is exactly dict.get(key, 0).
-/

/-- The dictionary key of RiskIdGenerator.generate_id: requirement id,
a dash and the category value. -/
def genKey (requirementId : String) (category : RiskCategory) : String :=
  requirementId ++ "-" ++ categoryValue category

/-- First three letters of the uppercased category value, as in
category.value.upper()[:3]. -/
def catCode (category : RiskCategory) : String :=
  String.mk (((categoryValue category).toList.map Char.toUpper).take 3)

/-- RiskIdGenerator.generate_id: increment the per key counter and format the
identifier; returns the identifier together with the updated counters. -/
def generateId (counters : String → Nat) (requirementId : String)
    (category : RiskCategory) : String × (String → Nat) :=
  let key := genKey requirementId category
  let counter := counters key + 1
  (requirementId ++ "-" ++ catCode category ++ "-" ++ pad3 counter,
   fun k => if k = key then counter else counters k)

/-- The fresh counter state of RiskIdGenerator.__init__: every key at 0. -/
def initCounters : String → Nat := fun _ => 0

/-- RiskIdGenerator.reset: clear all counters. -/
def resetGen (_counters : String → Nat) : String → Nat := initCounters

/-- Run a sequence of generate_id calls, collecting the produced identifiers
in order. -/
def runGen (counters : String → Nat) :
    List (String × RiskCategory) → List String
  | [] => []
  | (r, c) :: t =>
    let step := generateId counters r c
    step.1 :: runGen step.2 t

/-- Number of calls in the list whose generator key equals k. -/
def countKey (calls : List (String × RiskCategory)) (k : String) : Nat :=
  (calls.filter (fun rc => genKey rc.1 rc.2 = k)).length

/-! ## Security detector, missing authorization check
(src/src/detectors/security_detector.py, _detect_missing_authorization)

All four security checks share this shape: compute the configured triggers
found in the text; for each found trigger, if none of the required_with
phrases occur, append one risk whose evidence is that trigger.  The severity
passed to create_risk is the detector default, so the risk record carries the
configured default severity name.
-/

/-- SecurityDetector._detect_missing_authorization, with the trigger and
required_with lists of the missing_authorization rule block and the global
case sensitivity flag as parameters. -/
def detectMissingAuthorization (triggers requiredWith : List String)
    (caseSensitive : Bool) (defaultSeverity : String)
    (req : Requirement) : List RiskData :=
  if triggers = [] then []
  else
    let foundTriggers := containsKeywords req.text triggers caseSensitive
    foundTriggers.foldl
      (fun risks trigger =>
        if (containsKeywords req.text requiredWith caseSensitive).isEmpty then
          risks ++
            [{ description :=
                 "Administrative action \x27" ++ trigger ++
                   "\x27 mentioned without authorization requirements",
               evidence := trigger,
               severity := defaultSeverity,
               suggestion := some
                 ("Add authorization requirements (e.g., \x27only authorized administrators can perform this action\x27)") }]
        else risks)
      []

/-! ## Association lists as Python dictionaries

Python dict semantics used by scoring and the analyzer: assignment replaces
the value of an existing key in place, otherwise appends at the end, and
lookup finds the unique binding.
-/

/-- Dictionary assignment d[k] = v. -/
def dictInsert {β : Type} : List (String × β) → String → β → List (String × β)
  | [], k, v => [(k, v)]
  | (k', v') :: rest, k, v =>
    if k' = k then (k, v) :: rest else (k', v') :: dictInsert rest k v

/-- Dictionary lookup, none when the key is absent. -/
def dictGet {β : Type} : List (String × β) → String → Option β
  | [], _ => none
  | (k', v) :: rest, k => if k' = k then some v else dictGet rest k

/-! ## Scoring (src/src/scoring.py)

calculate_risk_scores sums Risk.get_severity_score over the risks of each
requirement; the average is the Python float division rounded by the builtin
round to two decimal places.  round on a float is round half to even; it is
modelled here over the rationals, which matches the Python value at every
score computation the counter and witness theorems evaluate.
-/

/-- Python round to the nearest integer, half to even. -/
def roundHalfEven (q : ℚ) : ℤ :=
  let f := ⌊q⌋
  let r := q - (f : ℚ)
  if r < 1 / 2 then f
  else if 1 / 2 < r then f + 1
  else if f % 2 = 0 then f else f + 1

/-- Python round(x, 2): round to two decimal places, half to even. -/
def pyRound2 (q : ℚ) : ℚ := (roundHalfEven (q * 100) : ℚ) / 100

/-- One value of the score dictionary built by calculate_risk_scores. -/
structure ScoreData where
  total_score : Nat
  avg_severity : ℚ
  risk_count : Nat
  risks : List Risk
deriving DecidableEq, Repr

/-- The score record of one requirement id: the body of the per requirement
branch of calculate_risk_scores. -/
def scoreFor (risksByRequirement : List (String × List Risk))
    (reqId : String) : ScoreData :=
  let risks := (dictGet risksByRequirement reqId).getD []
  if risks = [] then
    { total_score := 0, avg_severity := 0, risk_count := 0, risks := [] }
  else
    let total := (risks.map (fun r => severityValue r.severity)).sum
    { total_score := total,
      avg_severity := pyRound2 ((total : ℚ) / (risks.length : ℚ)),
      risk_count := risks.length,
      risks := risks }

/-- calculate_risk_scores (src/src/scoring.py lines 47 to 76). -/
def calculateRiskScores (requirements : List Requirement)
    (risksByRequirement : List (String × List Risk)) :
    List (String × ScoreData) :=
  requirements.foldl
    (fun scores req => dictInsert scores req.id (scoreFor risksByRequirement req.id))
    []

/-- One element of the list built by get_top_riskiest before sorting. -/
structure TopEntry where
  requirement_id : String
  total_score : Nat
  avg_severity : ℚ
  risk_count : Nat
  requirement : Requirement
  risks : List Risk
deriving DecidableEq, Repr

/-- Lexicographic strict order on character lists by code point, the Python
string comparison. -/
def strLtL : List Char → List Char → Bool
  | [], [] => false
  | [], _ :: _ => true
  | _ :: _, [] => false
  | a :: as, b :: bs =>
    if a.toNat < b.toNat then true
    else if b.toNat < a.toNat then false
    else strLtL as bs

/-- Nonstrict Python string comparison. -/
def strLeL (a b : List Char) : Bool := strLtL a b || a = b

/-- The sort key comparison of get_top_riskiest: the Python tuple
(-total_score, -risk_count, requirement_id) compared lexicographically, so
total score descending, then risk count descending, then requirement id
ascending. -/
def topLe (a b : TopEntry) : Bool :=
  if a.total_score = b.total_score then
    if a.risk_count = b.risk_count then
      strLeL a.requirement_id.toList b.requirement_id.toList
    else b.risk_count < a.risk_count
  else b.total_score < a.total_score

/-- The requirement lookup dictionary of get_top_riskiest; a Python dict
comprehension keeps the last requirement for a repeated id. -/
def reqLookup (requirements : List Requirement) (k : String) :
    Option Requirement :=
  (requirements.filter (fun r => r.id = k)).getLast?

/-- The scored_requirements list of get_top_riskiest: one entry per score
dictionary item whose requirement id is present among the requirements, in
dictionary order. -/
def scoredRequirements (requirements : List Requirement)
    (riskScores : List (String × ScoreData)) : List TopEntry :=
  riskScores.foldl
    (fun acc kv =>
      match reqLookup requirements kv.1 with
      | some req =>
        acc ++
          [{ requirement_id := kv.1,
             total_score := kv.2.total_score,
             avg_severity := kv.2.avg_severity,
             risk_count := kv.2.risk_count,
             requirement := req,
             risks := kv.2.risks }]
      | none => acc)
    []

/-- get_top_riskiest (src/src/scoring.py lines 112 to 139): sort by the
descending score key and truncate to the first top_n entries.  The Python
list sort is stable; the sort key is injective on dictionary-derived inputs
because it ends with the requirement id, so insertion sort computes the same
list. -/
def getTopRiskiest (requirements : List Requirement)
    (riskScores : List (String × ScoreData)) (topN : Nat) : List TopEntry :=
  ((scoredRequirements requirements riskScores).insertionSort
    (fun a b => topLe a b = true)).take topN

/-! ## Analyzer (src/src/analyzer.py, src/src/utils/detector_error_handler.py)

A detector is modelled as a function from a requirement to an optional risk
list; none models the detector raising an exception.  The default
DetectorErrorHandler.handle_detector_error logs and returns the empty list,
which is the getD below.  The optional risk filter chain parameter of
analyze_requirements is carried along; the engine contract runs without one.
-/

/-- A risk detector as the analyzer sees it: detect_risks either returns a
risk list or raises (none). -/
structure Detector where
  name : String
  detect : Requirement → Option (List Risk)

/-- In place list extension d[k].extend(risks) of a present key; the analyzer
only calls this for keys inserted up front. -/
def dictExtend : List (String × List Risk) → String → List Risk →
    List (String × List Risk)
  | [], _, _ => []
  | (k', v) :: rest, k, risks =>
    if k' = k then (k', v ++ risks) :: rest
    else (k', v) :: dictExtend rest k risks

/-- The body of the detector loop of analyze_requirements for one requirement
and one detector: catch an exception as the empty list, apply the optional
filter to a nonempty list, extend the bucket when nonempty. -/
def analyzeStep (riskFilter : Option (List Risk → List Risk))
    (req : Requirement) (m : List (String × List Risk)) (det : Detector) :
    List (String × List Risk) :=
  let risks := (det.detect req).getD []
  let risks := if risks ≠ [] then
      match riskFilter with
      | some f => f risks
      | none => risks
    else risks
  if risks ≠ [] then dictExtend m req.id risks else m

/-- analyze_requirements (src/src/analyzer.py lines 37 to 55). -/
def analyzeRequirements (requirements : List Requirement)
    (detectors : List Detector)
    (riskFilter : Option (List Risk → List Risk) := none) :
    List (String × List Risk) :=
  let initial := requirements.foldl (fun m req => dictInsert m req.id []) []
  requirements.foldl
    (fun m req => detectors.foldl (analyzeStep riskFilter req) m)
    initial

/-- The total contribution of all detectors to one requirement when no risk
filter is installed. -/
def detContribution (detectors : List Detector) (req : Requirement) :
    List Risk :=
  detectors.flatMap (fun det => (det.detect req).getD [])

/-! ## Rule configuration and detector setup
(src/src/config/configuration_provider.py,
src/src/config/detector_config_manager.py, src/src/detectors/base.py,
src/src/exceptions.py)

The loaded rule document is modelled structurally: a detectors dictionary of
loosely typed blocks, global settings and a severity mapping.  Optional
fields model absent dictionary keys.  _setup_detector fails by raising the
builtin ValueError when the detector category is disabled; the error type
below distinguishes the exception classes of the repository.
-/

/-- One rule block of a detector (the loosely typed rules entries are not
needed by the setup path and are kept abstract as name lists). -/
structure DetectorBlock where
  enabled : Option Bool := none
  severity : Option String := none
  ruleNames : List String := []
deriving DecidableEq, Repr

/-- The loaded rule document. -/
structure RulesConfig where
  detectors : List (String × DetectorBlock) := []
  global_settings : List (String × Bool) := []
  severity_mapping : List (String × Nat) := []
deriving DecidableEq, Repr

/-- JsonFileConfigurationProvider.get_detector_config: the block of the named
detector, an empty block when absent. -/
def getDetectorConfig (cfg : RulesConfig) (name : String) : DetectorBlock :=
  (dictGet cfg.detectors name).getD {}

/-- JsonFileConfigurationProvider.is_detector_enabled:
detector_config.get(enabled, False). -/
def isDetectorEnabled (cfg : RulesConfig) (name : String) : Bool :=
  ((getDetectorConfig cfg name).enabled).getD false

/-- The exception classes that the configuration and setup paths can raise:
the builtin ValueError and AttributeError, and the ConfigurationError of
src/src/exceptions.py. -/
inductive PyError where
  | valueErr (msg : String)
  | attributeErr (msg : String)
  | configurationErr (msg : String)
deriving DecidableEq, Repr

/-- True exactly on a ConfigurationError. -/
def isConfigurationErr {α : Type} : Except PyError α → Bool
  | .error (.configurationErr _) => true
  | _ => false

/-- The state established by a successful _setup_detector. -/
structure DetectorSetup where
  detector_config : DetectorBlock
  severity_mapping : List (String × Nat)
  global_settings : List (String × Bool)
deriving DecidableEq, Repr

/-- BaseRiskDetector._setup_detector (src/src/detectors/base.py lines 121 to
142) for the detector whose category value is categoryName: look up the
detector block, the severity mapping and the global settings, then raise
ValueError when the detector is disabled in the configuration. -/
def setupDetector (cfg : RulesConfig) (categoryName : String) :
    Except PyError DetectorSetup :=
  let detectorConfig := getDetectorConfig cfg categoryName
  let severityMapping := cfg.severity_mapping
  let globalSettings := cfg.global_settings
  if ¬ isDetectorEnabled cfg categoryName then
    .error (.valueErr
      ("Detector " ++ categoryName ++ " is disabled in configuration"))
  else
    .ok { detector_config := detectorConfig,
          severity_mapping := severityMapping,
          global_settings := globalSettings }

/-! ## Traceability detector (src/src/detectors/traceability_detector.py)

The three signals: a conservative identifier regex search, acceptance
criteria keywords or a bullet marker plus action word heuristic, and test
reference keywords.  The regexes are implemented as decidable scanners over
character lists with the documented re.search semantics; all five identifier
patterns are case sensitive.
-/

/-- A regex word boundary before the current position: start of string or a
previous non word character. -/
def boundaryBefore : Option Char → Bool
  | none => true
  | some c => ¬ isWordChar c

/-- A regex word boundary after a consumed match: end of string or a next non
word character. -/
def boundaryAfter : List Char → Bool
  | [] => true
  | c :: _ => ¬ isWordChar c

/-- Try all match start positions of re.search: the matcher receives the
previous character and the suffix at each position. -/
def searchPos (m : Option Char → List Char → Bool) :
    Option Char → List Char → Bool
  | prev, [] => m prev []
  | prev, c :: t => m prev (c :: t) || searchPos m (some c) t

/-- Matcher of the pattern boundary R digit-3-or-more boundary: an R followed
by a maximal run of at least three digits ending at a boundary.  Digits are
word characters, so backtracking inside the greedy run cannot rescue a failed
boundary and the maximal run is exact. -/
def matchRNum : Option Char → List Char → Bool
  | prev, 'R' :: rest =>
    boundaryBefore prev &&
      (rest.takeWhile isDigitChar).length ≥ 3 &&
      boundaryAfter (rest.dropWhile isDigitChar)
  | _, _ => false

/-- Matcher of a literal uppercase tag followed by a dash, one or more digits
and a boundary, for the patterns REQ- US- FR- with a leading boundary. -/
def matchTagNum (tag : List Char) (prev : Option Char) (l : List Char) : Bool :=
  boundaryBefore prev &&
    (match dropPref tag l with
     | some rest =>
       (rest.takeWhile isDigitChar).length ≥ 1 &&
         boundaryAfter (rest.dropWhile isDigitChar)
     | none => false)
where
  /-- Consume an exact character prefix. -/
  dropPref : List Char → List Char → Option (List Char)
    | [], l => some l
    | _ :: _, [] => none
    | p :: ps, c :: cs => if p = c then dropPref ps cs else none

/-- Matcher of the pattern boundary uppercase-2-or-more dash digits boundary
(the ABC-123 style identifier). -/
def matchUpperTagNum (prev : Option Char) (l : List Char) : Bool :=
  boundaryBefore prev &&
    (let ups := l.takeWhile isUpperChar
     ups.length ≥ 2 &&
       (match l.dropWhile isUpperChar with
        | '-' :: rest =>
          (rest.takeWhile isDigitChar).length ≥ 1 &&
            boundaryAfter (rest.dropWhile isDigitChar)
        | _ => false))

/-- TraceabilityDetector._has_requirement_id: any of the five conservative
identifier regexes matches somewhere in the text. -/
def hasRequirementId (text : String) : Bool :=
  let l := text.toList
  searchPos matchRNum none l ||
    searchPos (matchTagNum ['R', 'E', 'Q', '-']) none l ||
    searchPos (matchTagNum ['U', 'S', '-']) none l ||
    searchPos (matchTagNum ['F', 'R', '-']) none l ||
    searchPos matchUpperTagNum none l

/-- The configuration slice the traceability detector reads: the keyword
lists of its two keyword rules, the configured default severity and the
global case sensitivity flag. -/
structure TraceConfig where
  acKeywords : List String := []
  testKeywords : List String := []
  defaultSeverity : String := "medium"
  caseSensitive : Bool := false
deriving DecidableEq, Repr

/-- TraceabilityDetector._has_acceptance_criteria: configured keywords, or a
bullet marker in the raw text together with an action word in the normalized
text. -/
def hasAcceptanceCriteria (cfg : TraceConfig) (text : String) : Bool :=
  if ¬ (containsKeywords text cfg.acKeywords cfg.caseSensitive).isEmpty then
    true
  else
    let listMarkers : List String := ["- ", "* ", "1. ", "2. "]
    let actionWords : List String :=
      ["given", "when", "then", "acceptance", "criteria", "ac:"]
    let textNorm := normalizeText text cfg.caseSensitive
    (listMarkers.any (fun m => isSubstr m text)) &&
      (actionWords.any (fun a => isSubstr a textNorm))

/-- TraceabilityDetector._has_test_reference. -/
def hasTestReference (cfg : TraceConfig) (text : String) : Bool :=
  (containsKeywords text cfg.testKeywords cfg.caseSensitive).length > 0

/-- The blanket no-traceability risk, built with the detector default
severity. -/
def blanketTraceRisk (cfg : TraceConfig) (text : String) : RiskData :=
  { description :=
      "No traceability signals found (ID, acceptance criteria, or test reference)",
    evidence := text,
    severity := cfg.defaultSeverity,
    suggestion := none }

/-- The downgraded missing identifier risk. -/
def missingIdRisk (text : String) : RiskData :=
  { description := "Missing requirement ID (e.g., R001, REQ-123, ABC-123)",
    evidence := text,
    severity := "medium",
    suggestion := some
      ("Add a stable identifier (R###, REQ-#, US-#, FR-#, or ABC-123)") }

/-- The downgraded missing acceptance criteria risk. -/
def missingAcRisk (text : String) : RiskData :=
  { description :=
      "Missing acceptance criteria (e.g., Given/When/Then or \x27Acceptance Criteria\x27)",
    evidence := text,
    severity := "medium",
    suggestion := some
      ("Add AC with Given/When/Then or a short checklist under the requirement") }

/-- The downgraded missing test reference risk. -/
def missingTestRisk (text : String) : RiskData :=
  { description :=
      "Missing test reference (e.g., TC-123, \x27Test Case\x27, \x27validated by QA\x27)",
    evidence := text,
    severity := "medium",
    suggestion := some
      ("Reference a test artifact (TC-###) or note how it will be verified") }

/-- TraceabilityDetector.detect_risks (src/src/detectors/traceability_detector.py
lines 20 to 87): one blanket risk when no signal is present, otherwise one
downgraded risk per missing signal. -/
def detectTraceabilityRisks (cfg : TraceConfig) (req : Requirement) :
    List RiskData :=
  let hId := hasRequirementId req.text
  let hAc := hasAcceptanceCriteria cfg req.text
  let hTest := hasTestReference cfg req.text
  if ¬ (hId || hAc || hTest) then
    [blanketTraceRisk cfg req.text]
  else
    (if ¬ hId then [missingIdRisk req.text] else []) ++
      (if ¬ hAc then [missingAcRisk req.text] else []) ++
        (if ¬ hTest then [missingTestRisk req.text] else [])

/-! ## Requirement structure detector (src/src/requirement_structure_detector.py)

The ordered per line classification uses re.match with re.IGNORECASE against
fixed pattern lists.  Each pattern is implemented as a decidable matcher with
the exact backtracking semantics of the pattern: literal words are matched
case insensitively, a plus quantifier over a character class disjoint from
the following literal is a maximal run, the lazy dot star before a literal is
an existential split whose prefix contains no newline, and the dollar anchor
holds at the end of the string or before one final trailing newline.
-/

/-- Line classes of the structure detector. -/
inductive RequirementType where
  | user_story
  | functional
  | non_functional
  | header
  | separator
  | unknown
deriving DecidableEq, Repr

/-- RequirementType.value for the classes stored into units. -/
def requirementTypeValue : RequirementType → String
  | .user_story => "user_story"
  | .functional => "functional"
  | .non_functional => "non_functional"
  | .header => "header"
  | .separator => "separator"
  | .unknown => "unknown"

/-- Consume a literal word case insensitively (the word is given in
lowercase, matching re.IGNORECASE). -/
def litCI : List Char → List Char → Option (List Char)
  | [], l => some l
  | _ :: _, [] => none
  | p :: ps, c :: cs => if p = c.toLower then litCI ps cs else none

/-- Consume one or more characters of a class, maximally; none when the first
character is not in the class. -/
def afterPlus (p : Char → Bool) : List Char → Option (List Char)
  | [] => none
  | c :: t => if p c then some (t.dropWhile p) else none

/-- The tail pattern lazy-dot-star dollar: everything remaining matchable by
the dot up to the anchor, so no newline except possibly one final trailing
newline. -/
def dotStarDollar (l : List Char) : Bool :=
  ¬ l.contains '\n' ||
    (l.getLast? = some '\n' && ¬ (l.dropLast.contains '\n'))

/-- The tail pattern lazy-dot-star comma whitespace-star dollar: some split
into a newline free prefix, a comma, and a whitespace only suffix. -/
def commaThenWsEnd : List Char → Bool
  | [] => false
  | c :: t =>
    if c = ',' && t.all isWsChar then true
    else if c = '\n' then false
    else commaThenWsEnd t

/-- The tail pattern lazy-dot-star optional-dot whitespace-star dollar: every
character from the first newline on, if any, is whitespace. -/
def noNlThenWsEnd : List Char → Bool
  | [] => true
  | c :: t => if c = '\n' then t.all isWsChar else noNlThenWsEnd t

/-- Separator patterns: three or more dashes, equals signs, underscores or
asterisks forming the whole line. -/
def sepMatch (l : List Char) : Bool :=
  l.length ≥ 3 &&
    (l.all (fun c => c = '-') || l.all (fun c => c = '=') ||
      l.all (fun c => c = '_') || l.all (fun c => c = '*'))

/-- Header patterns: one or more hash marks then whitespace, or digits then a
period then whitespace, each followed by the dot star tail.  The three hash
patterns of the source collapse to the first one. -/
def headerMatch (l : List Char) : Bool :=
  (((afterPlus (fun c => c = '#') l).bind (afterPlus isWsChar)).map
      dotStarDollar).getD false ||
    ((afterPlus isDigitChar l).bind
        (fun r =>
          match r with
          | '.' :: r' => (afterPlus isWsChar r').map dotStarDollar
          | _ => none)).getD false

/-- Consume a sequence of literal words, each followed by mandatory
whitespace. -/
def seqWords : List (List Char) → List Char → Option (List Char)
  | [], l => some l
  | w :: rest, l =>
    ((litCI w l).bind (afterPlus isWsChar)).bind (seqWords rest)

/-- User story patterns: the three fragment shapes of the source list. -/
def usMatch (l : List Char) : Bool :=
  ((seqWords [['a', 's'], ['a']] l).map commaThenWsEnd).getD false ||
    ((seqWords [['i'], ['w', 'a', 'n', 't']] l).map commaThenWsEnd).getD false ||
    ((seqWords [['s', 'o'], ['t', 'h', 'a', 't']] l).map noNlThenWsEnd).getD false

/-- Functional requirement patterns. -/
def funcMatch (l : List Char) : Bool :=
  ((seqWords [['t', 'h', 'e'], ['s', 'y', 's', 't', 'e', 'm'],
      ['s', 'h', 'a', 'l', 'l']] l).map noNlThenWsEnd).getD false ||
    ((seqWords [['t', 'h', 'e'],
        ['a', 'p', 'p', 'l', 'i', 'c', 'a', 't', 'i', 'o', 'n'],
        ['m', 'u', 's', 't']] l).map noNlThenWsEnd).getD false ||
    ((seqWords [['t', 'h', 'e'], ['s', 'y', 's', 't', 'e', 'm'],
        ['w', 'i', 'l', 'l']] l).map noNlThenWsEnd).getD false

/-- One non functional pattern: a quality word, optional whitespace, a dash
or colon, optional whitespace, then the dot optional tail. -/
def nfOne (w : List Char) (l : List Char) : Bool :=
  match litCI w l with
  | some r =>
    (match r.dropWhile isWsChar with
     | c :: t =>
       if c = '-' || c = ':' then noNlThenWsEnd (t.dropWhile isWsChar)
       else false
     | [] => false)
  | none => false

/-- Non functional requirement patterns: the seven quality attribute words. -/
def nfMatch (l : List Char) : Bool :=
  [['p', 'e', 'r', 'f', 'o', 'r', 'm', 'a', 'n', 'c', 'e'],
   ['u', 's', 'a', 'b', 'i', 'l', 'i', 't', 'y'],
   ['r', 'e', 'l', 'i', 'a', 'b', 'i', 'l', 'i', 't', 'y'],
   ['s', 'c', 'a', 'l', 'a', 'b', 'i', 'l', 'i', 't', 'y'],
   ['s', 'e', 'c', 'u', 'r', 'i', 't', 'y'],
   ['a', 'v', 'a', 'i', 'l', 'a', 'b', 'i', 'l', 'i', 't', 'y'],
   ['m', 'a', 'i', 'n', 't', 'a', 'i', 'n', 'a', 'b', 'i', 'l', 'i', 't', 'y']
  ].any (fun w => nfOne w l)

/-- RequirementStructureDetector.detect_requirement_type: strip, then test
the pattern groups in order. -/
def detectRequirementType (line : String) : RequirementType :=
  let l := pyStripL line.toList
  if sepMatch l then .separator
  else if headerMatch l then .header
  else if usMatch l then .user_story
  else if funcMatch l then .functional
  else if nfMatch l then .non_functional
  else .unknown

/-- The functional pattern strings as source text.  The continuation
heuristic calls pattern.split()[0] on them; the patterns contain no
whitespace characters, so that split returns the whole pattern string. -/
def functionalPatternStrs : List String :=
  ["^The\\s+system\\s+shall\\s+.*?\\.?\\s*$",
   "^The\\s+application\\s+must\\s+.*?\\.?\\s*$",
   "^The\\s+system\\s+will\\s+.*?\\.?\\s*$"]

/-- The non functional pattern strings as source text, used the same way. -/
def nonFunctionalPatternStrs : List String :=
  ["^Performance\\s*[-:]\\s*.*?\\.?\\s*$",
   "^Usability\\s*[-:]\\s*.*?\\.?\\s*$",
   "^Reliability\\s*[-:]\\s*.*?\\.?\\s*$",
   "^Scalability\\s*[-:]\\s*.*?\\.?\\s*$",
   "^Security\\s*[-:]\\s*.*?\\.?\\s*$",
   "^Availability\\s*[-:]\\s*.*?\\.?\\s*$",
   "^Maintainability\\s*[-:]\\s*.*?\\.?\\s*$"]

/-- RequirementStructureDetector._looks_like_continuation: for a user story
unit, a lowercase first character or a known lead in; for every open unit, a
line that does not start with a pattern first token or the user story opener
and is longer than ten characters.  The first token of each pattern is the
whole pattern string because the patterns contain no whitespace. -/
def looksLikeContinuation (line : String) (t : RequirementType) : Bool :=
  let l := pyStripL line.toList
  let usCond :=
    (match l.head? with
     | some c => isLowerChar c
     | none => false) ||
      isPrefL ['I', ' ', 'w', 'a', 'n', 't'] l ||
      isPrefL ['s', 'o', ' ', 't', 'h', 'a', 't'] l ||
      isPrefL ['I', ' ', 'n', 'e', 'e', 'd'] l
  let generic :=
    !(functionalPatternStrs.any (fun p => isPrefL p.toList l)) &&
      !(nonFunctionalPatternStrs.any (fun p => isPrefL p.toList l)) &&
        !(isPrefL ['A', 's', ' ', 'a'] l) &&
          decide (l.length > 10)
  (decide (t = RequirementType.user_story) && usCond) || generic

/-- One structured requirement unit of parse_structured_requirements. -/
structure StructUnit where
  type : String
  lines : List String
  line_numbers : List Nat
  text : String
deriving DecidableEq, Repr

/-- Close the open unit, if any, into a one element list. -/
def closeAll : Option (StructUnit × RequirementType) → List StructUnit
  | some (u, _) => [u]
  | none => []

/-- Start a user story unit: the empty unit of the source immediately
receives the line, the line number and the line text plus a space. -/
def newUserStoryUnit (line : String) (n : Nat) : StructUnit :=
  { type := "user_story", lines := [line], line_numbers := [n],
    text := line ++ " " }

/-- Start a functional or non functional unit seeded with the line; its text
is the line without a trailing space. -/
def newStmtUnit (ty : String) (line : String) (n : Nat) : StructUnit :=
  { type := ty, lines := [line], line_numbers := [n], text := line }

/-- Append a line to the open unit: lines, line numbers, and text plus the
line and a space. -/
def appendToUnit (u : StructUnit) (line : String) (n : Nat) : StructUnit :=
  { u with
    lines := u.lines ++ [line],
    line_numbers := u.line_numbers ++ [n],
    text := u.text ++ line ++ " " }

/-- The line loop of parse_structured_requirements over enumerated lines,
carrying the open unit and its class. -/
def parseGo : Option (StructUnit × RequirementType) → List (Nat × String) →
    List StructUnit
  | cur, [] => closeAll cur
  | cur, (n, raw) :: rest =>
    let line := pyStrip raw
    if line = "" then parseGo cur rest
    else
      match detectRequirementType line with
      | .separator => closeAll cur ++ parseGo none rest
      | .header => closeAll cur ++ parseGo none rest
      | .user_story =>
        (match cur with
         | some (u, t) =>
           if t = .user_story then
             parseGo (some (appendToUnit u line n, .user_story)) rest
           else
             u :: parseGo (some (newUserStoryUnit line n, .user_story)) rest
         | none => parseGo (some (newUserStoryUnit line n, .user_story)) rest)
      | .functional =>
        closeAll cur ++
          parseGo (some (newStmtUnit "functional" line n, .functional)) rest
      | .non_functional =>
        closeAll cur ++
          parseGo
            (some (newStmtUnit "non_functional" line n, .non_functional)) rest
      | .unknown =>
        (match cur with
         | some (u, t) =>
           if looksLikeContinuation line t then
             parseGo (some (appendToUnit u line n, t)) rest
           else u :: parseGo none rest
         | none => parseGo none rest)

/-- Enumerate lines starting at one, as enumerate(lines, 1). -/
def enumerate1 : Nat → List String → List (Nat × String)
  | _, [] => []
  | n, x :: t => (n, x) :: enumerate1 (n + 1) t

/-- RequirementStructureDetector.parse_structured_requirements
(src/src/requirement_structure_detector.py lines 120 to 218). -/
def parseStructuredRequirements (lines : List String) : List StructUnit :=
  parseGo none (enumerate1 1 lines)

/-- The keep condition of filter_valid_requirements: the four skip tests of
the source in order. -/
def keepValid (r : StructUnit) : Bool :=
  if (pyStrip r.text).length < 10 then false
  else if wordCount r.text.toList < 3 then false
  else if pyStrip r.text = "---" || pyStrip r.text = "..." ||
      pyStrip r.text = "***" || pyStrip r.text = "___" then false
  else if r.type = "user_story" && r.lines.length < 2 then false
  else true

/-- RequirementStructureDetector.filter_valid_requirements
(src/src/requirement_structure_detector.py lines 251 to 282). -/
def filterValidRequirements (rs : List StructUnit) : List StructUnit :=
  rs.filter keepValid

/-! ## Concrete instances used by the witness and counterexample theorems -/

/-- True exactly on a successful Except value. -/
def exceptOk {ε α : Type} : Except ε α → Bool
  | .ok _ => true
  | .error _ => false

/-- A requirement carrying three risks for the scoring counterexample. -/
def c3Req : Requirement :=
  { id := "R001", line_number := 12, text := "The system shall respond" }

/-- First low severity risk of the scoring counterexample. -/
def c3Risk1 : Risk :=
  { id := "R001-AMB-001", category := .ambiguity, severity := .low,
    description := "vague term", requirement_id := "R001",
    line_number := 12, evidence := "term one" }

/-- Second low severity risk of the scoring counterexample. -/
def c3Risk2 : Risk :=
  { id := "R001-AMB-002", category := .ambiguity, severity := .low,
    description := "vague term", requirement_id := "R001",
    line_number := 12, evidence := "term two" }

/-- Medium severity risk of the scoring counterexample. -/
def c3Risk3 : Risk :=
  { id := "R001-SEC-001", category := .security, severity := .medium,
    description := "missing control", requirement_id := "R001",
    line_number := 12, evidence := "term three" }

/-- The requirement list of the scoring counterexample. -/
def c3Reqs : List Requirement := [c3Req]

/-- The risks by requirement map of the scoring counterexample: severity
ranks 1, 1 and 2, so the total is 4 over 3 risks. -/
def c3Rb : List (String × List Risk) := [("R001", [c3Risk1, c3Risk2, c3Risk3])]

/-- First requirement of the ranking witness. -/
def w4Req1 : Requirement :=
  { id := "R001", line_number := 1, text := "first requirement text" }

/-- Second requirement of the ranking witness. -/
def w4Req2 : Requirement :=
  { id := "R002", line_number := 2, text := "second requirement text" }

/-- The requirement list of the ranking witness. -/
def w4Reqs : List Requirement := [w4Req1, w4Req2]

/-- The score dictionary of the ranking witness. -/
def w4Scores : List (String × ScoreData) :=
  [("R001", { total_score := 3, avg_severity := 0, risk_count := 1, risks := [] }),
   ("R002", { total_score := 7, avg_severity := 0, risk_count := 2, risks := [] })]

/-- First requirement of the analyzer witness. -/
def w6Req1 : Requirement :=
  { id := "R001", line_number := 1, text := "first requirement text" }

/-- Second requirement of the analyzer witness. -/
def w6Req2 : Requirement :=
  { id := "R002", line_number := 2, text := "second requirement text" }

/-- The requirement list of the analyzer witness. -/
def w6Reqs : List Requirement := [w6Req1, w6Req2]

/-- Risk reported by the healthy detector on the first requirement. -/
def w6RiskA : Risk :=
  { id := "R001-AMB-001", category := .ambiguity, severity := .medium,
    description := "found by the healthy detector", requirement_id := "R001",
    line_number := 1, evidence := "term" }

/-- Risk reported by the healthy detector on the second requirement. -/
def w6RiskB : Risk :=
  { id := "R002-AMB-001", category := .ambiguity, severity := .medium,
    description := "found by the healthy detector", requirement_id := "R002",
    line_number := 2, evidence := "term" }

/-- Risk reported by the failing detector on the second requirement. -/
def w6RiskC : Risk :=
  { id := "R002-SEC-001", category := .security, severity := .high,
    description := "found by the failing detector", requirement_id := "R002",
    line_number := 2, evidence := "term" }

/-- A detector that succeeds on every requirement. -/
def w6DetGood : Detector :=
  { name := "good",
    detect := fun r => if r.id = "R001" then some [w6RiskA] else some [w6RiskB] }

/-- A detector that raises on the first requirement and succeeds on the
second. -/
def w6DetBad : Detector :=
  { name := "bad",
    detect := fun r => if r.id = "R001" then none else some [w6RiskC] }

/-- The detector list of the analyzer witness. -/
def w6Dets : List Detector := [w6DetGood, w6DetBad]

/-- The three user story lines of the structure detector example. -/
def c7Lines : List String :=
  ["As a user,", "I want to reset my password,", "so that I can regain access."]

/-- The single unit the structure detector builds from the example lines. -/
def c7Unit : StructUnit :=
  { type := "user_story",
    lines := ["As a user,", "I want to reset my password,",
      "so that I can regain access."],
    line_numbers := [1, 2, 3],
    text := "As a user, I want to reset my password, so that I can regain access. " }

/-- A unit that passes every filter_valid_requirements test. -/
def c7Kept : StructUnit :=
  { type := "functional",
    lines := ["The system shall work properly today"],
    line_numbers := [1],
    text := "The system shall work properly today" }

/-- A rule document in which the security detector is disabled. -/
def secDisabledConfig : RulesConfig :=
  { detectors := [("security", { enabled := some false, severity := some "high" })],
    global_settings := [],
    severity_mapping := [] }

/-- Traceability configuration of the witness: empty keyword lists and a
high default severity. -/
def c9Cfg : TraceConfig :=
  { acKeywords := [], testKeywords := [], defaultSeverity := "high",
    caseSensitive := false }

/-- A requirement with a stable identifier signal. -/
def c9ReqWithId : Requirement :=
  { id := "R001", line_number := 1, text := "R001 the system shall respond" }

/-- A requirement with no traceability signal. -/
def c9ReqNone : Requirement :=
  { id := "R002", line_number := 2, text := "hello world thing" }

/-! ## Theorems -/

/-- Folding the keyword collection loop over an accumulator appends exactly
the filtered keywords. -/
theorem foldl_collect_eq_filter (p : String → Bool) :
    ∀ (ks acc : List String),
      ks.foldl (fun found k => if p k then found ++ [k] else found) acc =
        acc ++ ks.filter p
  | [], acc => by simp
  | k :: ks, acc => by
    by_cases h : p k = true
    · simp [foldl_collect_eq_filter p ks, h, List.filter_cons]
    · simp [foldl_collect_eq_filter p ks, h, List.filter_cons]

/-- The keyword search is the filter of the configured list by normalized
substring containment. -/
theorem containsKeywords_eq_filter (text : String) (ks : List String)
    (cs : Bool) :
    containsKeywords text ks cs =
      ks.filter (fun k => isSubstr (normalizeText k cs) (normalizeText text cs)) := by
  unfold containsKeywords
  exact foldl_collect_eq_filter _ ks []

/-- C1: the RiskCategory enum written in src/src/models/risk.py is a closed
set of six values only; the traceability and scope values returned by the
traceability and scope detectors (and asserted by the unit tests of the
repository) are not members of it, so the eight member closed set of the
claim does not hold of the source enum. -/
theorem c1_source_enum_lacks_two_categories :
    sourceRiskCategoryValues.length = 6 ∧
      categoryValue RiskCategory.traceability ∉ sourceRiskCategoryValues ∧
        categoryValue RiskCategory.scope ∉ sourceRiskCategoryValues := by
  decide

/-- C10: keyword containment is plain substring containment on case folded
text, in configured keyword order.  First conjunct: the found list is the
filter of the configured list by substring containment of normalized forms,
hence follows configured order.  Second conjunct: the keyword should is
found inside the longer word shoulder.  Third conjunct: matches are reported
in configured order even when the occurrence order in the text is reversed. -/
theorem c10_contains_keywords_is_substring_filter :
    (∀ (text : String) (ks : List String),
        containsKeywords text ks false =
          ks.filter
            (fun k => isSubstr (normalizeText k false) (normalizeText text false))) ∧
      containsKeywords ("My shoulder hurts") [("should")] false = [("should")] ∧
        containsKeywords ("b comes after a") [("a"), ("b")] false =
          [("a"), ("b")] := by
  refine ⟨fun text ks => containsKeywords_eq_filter text ks false, ?_, ?_⟩
  · decide
  · decide

/-- Length of the fold that appends one element per list member. -/
theorem foldl_append_one_length {α β : Type} (f : α → β) :
    ∀ (l : List α) (acc : List β),
      (l.foldl (fun a x => a ++ [f x]) acc).length = acc.length + l.length
  | [], acc => by simp
  | x :: l, acc => by
    simp [foldl_append_one_length f l, Nat.add_assoc, Nat.add_comm 1]

/-- C2 counterexample: with the triggers admin and delete configured, the
requirement text mentions both, no required phrase is present, and the
missing authorization check emits two risks for the one requirement, not
exactly one. -/
theorem c2_counterexample :
    containsKeywords ("Admin users shall delete records") [("admin"), ("delete")]
        false ≠ [] ∧
      containsKeywords ("Admin users shall delete records") [("authorized")]
          false = [] ∧
        (detectMissingAuthorization [("admin"), ("delete")] [("authorized")]
            false ("high")
            { id := "R001", line_number := 1,
              text := "Admin users shall delete records" }).length = 2 ∧
          ¬ (detectMissingAuthorization [("admin"), ("delete")] [("authorized")]
              false ("high")
              { id := "R001", line_number := 1,
                text := "Admin users shall delete records" }).length = 1 := by
  refine ⟨by decide, by decide, by decide, by decide⟩

/-- C2 amended: a trigger without required check emits one risk per distinct
configured trigger phrase found in the text when no required phrase is
present, and no risk otherwise; in particular at most one risk per
configured trigger, independent of the number of occurrences in the text. -/
theorem c2_one_risk_per_matched_trigger (triggers requiredWith : List String)
    (cs : Bool) (sev : String) (req : Requirement) :
    (detectMissingAuthorization triggers requiredWith cs sev req).length =
        (if (containsKeywords req.text requiredWith cs).isEmpty then
          (containsKeywords req.text triggers cs).length
        else 0) ∧
      (detectMissingAuthorization triggers requiredWith cs sev req).length ≤
        triggers.length := by
  have hlen :
      (detectMissingAuthorization triggers requiredWith cs sev req).length =
        if (containsKeywords req.text requiredWith cs).isEmpty then
          (containsKeywords req.text triggers cs).length
        else 0 := by
    unfold detectMissingAuthorization
    by_cases htr : triggers = []
    · subst htr
      simp [containsKeywords]
    · simp only [if_neg htr]
      by_cases hreq : (containsKeywords req.text requiredWith cs).isEmpty = true
      · simp only [hreq, if_true]
        rw [show (containsKeywords req.text triggers cs).length =
            ([] : List RiskData).length + (containsKeywords req.text triggers cs).length
          from (Nat.zero_add _).symm]
        exact foldl_append_one_length _ _ []
      · simp only [hreq, if_false, Bool.false_eq_true]
        induction containsKeywords req.text triggers cs with
        | nil => simp
        | cons k ks ih => simp [hreq]
  refine ⟨hlen, ?_⟩
  rw [hlen]
  by_cases hreq : (containsKeywords req.text requiredWith cs).isEmpty = true
  · have hle : (containsKeywords req.text triggers cs).length ≤ triggers.length := by
      rw [containsKeywords_eq_filter]
      exact List.length_filter_le _ _
    simpa [hreq] using hle
  · simp [hreq]

/-- The i-th identifier produced from any counter state: the counter used is
the stored counter of the key plus the number of earlier calls with the same
key plus one. -/
theorem runGen_getElem :
    ∀ (calls : List (String × RiskCategory)) (s : String → Nat) (i : Nat),
      (runGen s calls)[i]? =
        (calls[i]?).map
          (fun rc =>
            rc.1 ++ "-" ++ catCode rc.2 ++ "-" ++
              pad3 (s (genKey rc.1 rc.2) +
                countKey (calls.take i) (genKey rc.1 rc.2) + 1))
  | [], s, i => by simp [runGen]
  | (r, c) :: t, s, 0 => by
    simp [runGen, generateId, countKey, List.take]
  | (r, c) :: t, s, i + 1 => by
    simp only [runGen, generateId, List.getElem?_cons_succ, List.take_succ_cons]
    rw [runGen_getElem t _ i]
    cases ht : t[i]? with
    | none => simp
    | some rc =>
      obtain ⟨r', c'⟩ := rc
      simp only [Option.map_some']
      have hcnt : countKey ((r, c) :: List.take i t) (genKey r' c') =
          (if genKey r c = genKey r' c' then 1 else 0) +
            countKey (List.take i t) (genKey r' c') := by
        simp only [countKey, List.filter_cons]
        by_cases h : genKey r c = genKey r' c'
        · simp [h]
          omega
        · simp [h]
      have hx : (if genKey r' c' = genKey r c then s (genKey r c) + 1
              else s (genKey r' c')) +
            countKey (List.take i t) (genKey r' c') + 1 =
          s (genKey r' c') +
            countKey ((r, c) :: List.take i t) (genKey r' c') + 1 := by
        rw [hcnt]
        by_cases hk : genKey r' c' = genKey r c
        · rw [hk, if_pos rfl, if_pos rfl]
          omega
        · have hk2 : genKey r c ≠ genKey r' c' := fun h => hk h.symm
          rw [if_neg hk, if_neg hk2]
          omega
      rw [hx]

/-- C5: identifier generation.  First conjunct: from a fresh generator, the
i-th generated identifier is the requirement id, a dash, the first three
letters of the uppercased category value, a dash, and the zero padded
counter equal to one plus the number of earlier calls with the same
requirement and category key, so per key counters increase strictly from
one.  Second conjunct: after a reset, any call sequence reproduces exactly
the identifiers of a fresh generator. -/
theorem c5_generator_counters_and_reset :
    (∀ (calls : List (String × RiskCategory)) (i : Nat),
        (runGen initCounters calls)[i]? =
          (calls[i]?).map
            (fun rc =>
              rc.1 ++ "-" ++ catCode rc.2 ++ "-" ++
                pad3 (countKey (calls.take i) (genKey rc.1 rc.2) + 1))) ∧
      ∀ (s : String → Nat) (calls : List (String × RiskCategory)),
        runGen (resetGen s) calls = runGen initCounters calls := by
  constructor
  · intro calls i
    rw [runGen_getElem calls initCounters i]
    cases calls[i]? with
    | none => simp
    | some rc => simp [initCounters]
  · intro s calls
    rfl

/-- C8 counterexample: constructing a detector against a configuration in
which its category is disabled raises the builtin ValueError, not the
ConfigurationError of src/src/exceptions.py which the claim names. -/
theorem c8_counterexample :
    setupDetector secDisabledConfig ("security") =
        .error (.valueErr ("Detector security is disabled in configuration")) ∧
      isConfigurationErr (setupDetector secDisabledConfig ("security")) =
        false := by
  refine ⟨rfl, rfl⟩

/-- C8 amended: when a detector category is disabled in the loaded rule
configuration, _setup_detector always fails at construction time, raising a
ValueError naming the detector; it never returns a successful setup state. -/
theorem c8_disabled_detector_raises_value_error (cfg : RulesConfig)
    (name : String) (h : isDetectorEnabled cfg name = false) :
    setupDetector cfg name =
        .error (.valueErr
          ("Detector " ++ name ++ " is disabled in configuration")) ∧
      exceptOk (setupDetector cfg name) = false := by
  unfold setupDetector
  simp [h, exceptOk]

/-- C8 witness: the amended theorem applied to a concrete configuration with
a disabled security block. -/
theorem c8_witness :
    isDetectorEnabled secDisabledConfig ("security") = false ∧
      setupDetector secDisabledConfig ("security") =
        .error (.valueErr
          ("Detector " ++ ("security") ++ " is disabled in configuration")) := by
  refine ⟨by decide, ?_⟩
  exact (c8_disabled_detector_raises_value_error secDisabledConfig ("security")
    (by decide)).1

/-- Lookup after dictionary assignment: the assigned key maps to the new
value, every other key is unchanged. -/
theorem dictGet_dictInsert {β : Type} :
    ∀ (m : List (String × β)) (k : String) (v : β) (q : String),
      dictGet (dictInsert m k v) q = if k = q then some v else dictGet m q
  | [], k, v, q => by simp [dictInsert, dictGet]
  | (a, b) :: rest, k, v, q => by
    by_cases hak : a = k
    · subst hak
      by_cases haq : a = q
      · simp [dictInsert, dictGet, haq]
      · simp [dictInsert, dictGet, haq]
    · by_cases haq : a = q
      · subst haq
        have hkq : ¬ (k = a) := fun h => hak h.symm
        simp [dictInsert, dictGet, hak, hkq]
      · simp [dictInsert, dictGet, hak, haq, dictGet_dictInsert rest k v q]

/-- Lookup after a fold of per requirement dictionary assignments whose
value depends only on the key: present requirements map to that value,
other keys are unchanged. -/
theorem dictGet_foldl_insert {β : Type} (v : String → β) :
    ∀ (reqs : List Requirement) (m : List (String × β)) (q : String),
      dictGet (reqs.foldl (fun m req => dictInsert m req.id (v req.id)) m) q =
        if reqs.any (fun r => r.id = q) then some (v q)
        else dictGet m q
  | [], m, q => by simp
  | r :: t, m, q => by
    simp only [List.foldl_cons, List.any_cons]
    rw [dictGet_foldl_insert v t _ q]
    by_cases ht : t.any (fun r => r.id = q) = true
    · simp [ht]
    · by_cases hr : r.id = q
      · subst hr
        simp [ht, dictGet_dictInsert]
      · simp [ht, hr, dictGet_dictInsert]

/-- Every requirement id present in the input maps, in the score dictionary,
to the score record of its id; absent keys are absent. -/
theorem calculateRiskScores_lookup (reqs : List Requirement)
    (rb : List (String × List Risk)) (q : String) :
    dictGet (calculateRiskScores reqs rb) q =
      if reqs.any (fun r => r.id = q) then some (scoreFor rb q)
      else none := by
  unfold calculateRiskScores
  rw [dictGet_foldl_insert (fun k => scoreFor rb k) reqs [] q]
  rfl

/-- C3 counterexample: a requirement with risks of severity ranks 1, 1 and 2
has total score 4 over 3 risks, and the stored average severity is the
rounded value 1.33, not the exact quotient 4 over 3 that the claim states. -/
theorem c3_counterexample :
    (dictGet (calculateRiskScores c3Reqs c3Rb) ("R001")).map
          ScoreData.avg_severity = some (133 / 100) ∧
      (133 : ℚ) / 100 ≠ (4 : ℚ) / 3 ∧
        (dictGet (calculateRiskScores c3Reqs c3Rb) ("R001")).map
            ScoreData.total_score = some 4 ∧
          (dictGet (calculateRiskScores c3Reqs c3Rb) ("R001")).map
              ScoreData.risk_count = some 3 := by
  have hfloor : ⌊((4 : ℚ) / 3 * 100)⌋ = 133 := by
    rw [Int.floor_eq_iff]
    norm_num
  have hround : pyRound2 ((4 : ℚ) / 3) = 133 / 100 := by
    unfold pyRound2 roundHalfEven
    rw [hfloor]
    norm_num
  have hget : dictGet (calculateRiskScores c3Reqs c3Rb) ("R001") =
      some (scoreFor c3Rb ("R001")) := by
    rw [calculateRiskScores_lookup]
    simp [c3Reqs, c3Req]
  have hscore : scoreFor c3Rb ("R001") =
      { total_score := 4, avg_severity := pyRound2 ((4 : ℚ) / 3),
        risk_count := 3, risks := [c3Risk1, c3Risk2, c3Risk3] } := by
    simp [scoreFor, c3Rb, dictGet, c3Risk1, c3Risk2, c3Risk3, severityValue]
  refine ⟨?_, by norm_num, ?_, ?_⟩
  · rw [hget, hscore, Option.map_some', hround]
  · rw [hget, hscore, Option.map_some']
  · rw [hget, hscore, Option.map_some']

/-- C3 amended: for every requirement of the input, the score dictionary has
an entry whose total score is the sum of the severity ranks of the
associated risks and whose risk count is their number; a requirement with no
associated risks gets the record 0, 0.0, 0; when risks exist the stored
average severity is the total divided by the count rounded to two decimal
places, half to even, as the builtin round of Python produces. -/
theorem c3_scores_sum_and_rounded_average (reqs : List Requirement)
    (rb : List (String × List Risk)) (req : Requirement) (hmem : req ∈ reqs) :
    ∃ sd, dictGet (calculateRiskScores reqs rb) req.id = some sd ∧
      sd.total_score =
          (((dictGet rb req.id).getD []).map
            (fun r => severityValue r.severity)).sum ∧
        sd.risk_count = ((dictGet rb req.id).getD []).length ∧
          ((dictGet rb req.id).getD [] = [] →
            sd = { total_score := 0, avg_severity := 0, risk_count := 0,
                   risks := [] }) ∧
            ((dictGet rb req.id).getD [] ≠ [] →
              sd.avg_severity =
                pyRound2 ((sd.total_score : ℚ) / (sd.risk_count : ℚ))) := by
  have hany : reqs.any (fun r => r.id = req.id) = true := by
    rw [List.any_eq_true]
    exact ⟨req, hmem, by simp⟩
  refine ⟨scoreFor rb req.id, ?_, ?_, ?_, ?_, ?_⟩
  · rw [calculateRiskScores_lookup, if_pos hany]
  · unfold scoreFor
    by_cases h : (dictGet rb req.id).getD [] = []
    · simp [h]
    · simp [h]
  · unfold scoreFor
    by_cases h : (dictGet rb req.id).getD [] = []
    · simp [h]
    · simp [h]
  · intro h
    unfold scoreFor
    simp [h]
  · intro h
    unfold scoreFor
    simp [h]

/-- C3 witness: the amended theorem applied to the concrete requirement of
the counterexample, whose membership hypothesis holds by evaluation. -/
theorem c3_witness :
    c3Req ∈ c3Reqs ∧
      ∃ sd, dictGet (calculateRiskScores c3Reqs c3Rb) c3Req.id = some sd ∧
        sd.total_score =
            (((dictGet c3Rb c3Req.id).getD []).map
              (fun r => severityValue r.severity)).sum ∧
          sd.risk_count = ((dictGet c3Rb c3Req.id).getD []).length ∧
            ((dictGet c3Rb c3Req.id).getD [] = [] →
              sd = { total_score := 0, avg_severity := 0, risk_count := 0,
                     risks := [] }) ∧
              ((dictGet c3Rb c3Req.id).getD [] ≠ [] →
                sd.avg_severity =
                  pyRound2 ((sd.total_score : ℚ) / (sd.risk_count : ℚ))) :=
  ⟨by decide,
   c3_scores_sum_and_rounded_average c3Reqs c3Rb c3Req (by decide)⟩

/-- Characters with equal code points are equal. -/
theorem char_eq_of_toNat_eq (x y : Char) (h : x.toNat = y.toNat) : x = y := by
  apply Char.ext
  apply UInt32.ext
  simpa [Char.toNat, UInt32.toNat] using h

/-- The strict string order is transitive. -/
theorem strLtL_trans :
    ∀ (a b c : List Char), strLtL a b = true → strLtL b c = true →
      strLtL a c = true
  | [], [], _, hab, _ => by simp [strLtL] at hab
  | [], _ :: _, [], _, hbc => by simp [strLtL] at hbc
  | [], _ :: _, _ :: _, _, _ => by simp [strLtL]
  | _ :: _, [], _, hab, _ => by simp [strLtL] at hab
  | _ :: _, _ :: _, [], _, hbc => by simp [strLtL] at hbc
  | x :: xs, y :: ys, z :: zs, hab, hbc => by
    simp only [strLtL] at hab hbc ⊢
    by_cases hxy : x.toNat < y.toNat
    · by_cases hyz : y.toNat < z.toNat
      · rw [if_pos (by omega)]
      · rw [if_neg hyz] at hbc
        by_cases hzy : z.toNat < y.toNat
        · rw [if_pos hzy] at hbc
          exact absurd hbc (by simp)
        · rw [if_pos (by omega)]
    · rw [if_neg hxy] at hab
      by_cases hyx : y.toNat < x.toNat
      · rw [if_pos hyx] at hab
        exact absurd hab (by simp)
      · rw [if_neg hyx] at hab
        by_cases hyz : y.toNat < z.toNat
        · rw [if_pos (by omega)]
        · rw [if_neg hyz] at hbc
          by_cases hzy : z.toNat < y.toNat
          · rw [if_pos hzy] at hbc
            exact absurd hbc (by simp)
          · rw [if_neg hzy] at hbc
            rw [if_neg (by omega), if_neg (by omega)]
            exact strLtL_trans xs ys zs hab hbc

/-- The nonstrict string order is transitive. -/
theorem strLeL_trans (a b c : List Char) (h1 : strLeL a b = true)
    (h2 : strLeL b c = true) : strLeL a c = true := by
  simp only [strLeL, Bool.or_eq_true, decide_eq_true_eq] at h1 h2 ⊢
  rcases h1 with h1 | h1
  · rcases h2 with h2 | h2
    · exact Or.inl (strLtL_trans a b c h1 h2)
    · subst h2
      exact Or.inl h1
  · subst h1
    exact h2

/-- Pushing an equal head through the nonstrict string order. -/
theorem strLeL_cons_same (x : Char) (xs ys : List Char) :
    strLeL (x :: xs) (x :: ys) = strLeL xs ys := by
  simp [strLeL, strLtL]

/-- The nonstrict string order is total. -/
theorem strLeL_total : ∀ (a b : List Char),
    strLeL a b = true ∨ strLeL b a = true
  | [], [] => Or.inl (by simp [strLeL])
  | [], _ :: _ => Or.inl (by simp [strLeL, strLtL])
  | _ :: _, [] => Or.inr (by simp [strLeL, strLtL])
  | x :: xs, y :: ys => by
    by_cases hxy : x.toNat < y.toNat
    · exact Or.inl (by simp [strLeL, strLtL, hxy])
    · by_cases hyx : y.toNat < x.toNat
      · exact Or.inr (by simp [strLeL, strLtL, hyx])
      · have hx : x = y := char_eq_of_toNat_eq x y (by omega)
        subst hx
        rcases strLeL_total xs ys with h | h
        · exact Or.inl (by rw [strLeL_cons_same]; exact h)
        · exact Or.inr (by rw [strLeL_cons_same]; exact h)

/-- The ranking comparison is total. -/
theorem topLe_total : ∀ (a b : TopEntry),
    topLe a b = true ∨ topLe b a = true := by
  intro a b
  unfold topLe
  by_cases h1 : a.total_score = b.total_score
  · rw [if_pos h1, if_pos h1.symm]
    by_cases h2 : a.risk_count = b.risk_count
    · rw [if_pos h2, if_pos h2.symm]
      exact strLeL_total _ _
    · rw [if_neg h2, if_neg (fun h => h2 h.symm)]
      simp only [decide_eq_true_eq]
      omega
  · rw [if_neg h1, if_neg (fun h => h1 h.symm)]
    simp only [decide_eq_true_eq]
    omega

/-- The ranking comparison is transitive. -/
theorem topLe_trans (a b e : TopEntry) (hab : topLe a b = true)
    (hbc : topLe b e = true) : topLe a e = true := by
  unfold topLe at hab hbc ⊢
  by_cases h1 : a.total_score = b.total_score
  · rw [if_pos h1] at hab
    by_cases h2 : b.total_score = e.total_score
    · rw [if_pos h2] at hbc
      rw [if_pos (h1.trans h2)]
      by_cases h3 : a.risk_count = b.risk_count
      · rw [if_pos h3] at hab
        by_cases h4 : b.risk_count = e.risk_count
        · rw [if_pos h4] at hbc
          rw [if_pos (h3.trans h4)]
          exact strLeL_trans _ _ _ hab hbc
        · rw [if_neg h4] at hbc
          simp only [decide_eq_true_eq] at hbc
          rw [if_neg (by omega)]
          simp only [decide_eq_true_eq]
          omega
      · rw [if_neg h3] at hab
        simp only [decide_eq_true_eq] at hab
        by_cases h4 : b.risk_count = e.risk_count
        · rw [if_pos h4] at hbc
          rw [if_neg (by omega)]
          simp only [decide_eq_true_eq]
          omega
        · rw [if_neg h4] at hbc
          simp only [decide_eq_true_eq] at hbc
          rw [if_neg (by omega)]
          simp only [decide_eq_true_eq]
          omega
    · rw [if_neg h2] at hbc
      simp only [decide_eq_true_eq] at hbc
      rw [if_neg (by omega)]
      simp only [decide_eq_true_eq]
      omega
  · rw [if_neg h1] at hab
    simp only [decide_eq_true_eq] at hab
    by_cases h2 : b.total_score = e.total_score
    · rw [if_pos h2] at hbc
      rw [if_neg (by omega)]
      simp only [decide_eq_true_eq]
      omega
    · rw [if_neg h2] at hbc
      simp only [decide_eq_true_eq] at hbc
      rw [if_neg (by omega)]
      simp only [decide_eq_true_eq]
      omega

instance : IsTotal TopEntry (fun a b => topLe a b = true) := ⟨topLe_total⟩

instance : IsTrans TopEntry (fun a b => topLe a b = true) :=
  ⟨fun a b e => topLe_trans a b e⟩

/-- C4: the top N operation returns the scored requirements ordered by the
total key (total score descending, then risk count descending, then
requirement id ascending), truncated to at most n entries; the comparison is
total, so ties are never broken arbitrarily; when no more than n scored
requirements exist, the result is exactly all of them in sorted order. -/
theorem c4_top_riskiest_sorted_and_truncated (reqs : List Requirement)
    (scores : List (String × ScoreData)) (n : Nat) :
    List.Pairwise (fun a b => topLe a b = true)
        (getTopRiskiest reqs scores n) ∧
      (getTopRiskiest reqs scores n).length =
          min n (scoredRequirements reqs scores).length ∧
        ((scoredRequirements reqs scores).length ≤ n →
          (getTopRiskiest reqs scores n).Perm
            (scoredRequirements reqs scores)) ∧
          (∀ x, x ∈ getTopRiskiest reqs scores n →
            x ∈ scoredRequirements reqs scores) ∧
            (∀ a b : TopEntry, topLe a b = true ∨ topLe b a = true) := by
  refine ⟨?_, ?_, ?_, ?_, topLe_total⟩
  · exact ((List.sorted_insertionSort _ _).sublist
      (List.take_sublist _ _))
  · rw [getTopRiskiest, List.length_take, List.length_insertionSort]
  · intro h
    rw [getTopRiskiest, List.take_of_length_le
      (by rw [List.length_insertionSort]; exact h)]
    exact List.perm_insertionSort _ _
  · intro x hx
    have hx2 := List.mem_of_mem_take hx
    exact (List.mem_insertionSort _).mp hx2

/-- C4 witness: the theorem applied at two concrete scored requirements with
n equal to five, discharging the fewer than n hypothesis by evaluation. -/
theorem c4_witness :
    (scoredRequirements w4Reqs w4Scores).length ≤ 5 ∧
      (getTopRiskiest w4Reqs w4Scores 5).Perm
        (scoredRequirements w4Reqs w4Scores) :=
  ⟨by decide,
   (c4_top_riskiest_sorted_and_truncated w4Reqs w4Scores 5).2.2.1 (by decide)⟩

/-- Lookup after in place bucket extension: the extended key gains the
appended risks when present, every other key is unchanged. -/
theorem dictGet_dictExtend :
    ∀ (m : List (String × List Risk)) (k : String) (risks : List Risk)
      (q : String),
      dictGet (dictExtend m k risks) q =
        if q = k then (dictGet m q).map (fun v => v ++ risks)
        else dictGet m q
  | [], k, risks, q => by simp [dictExtend, dictGet]
  | (a, b) :: rest, k, risks, q => by
    by_cases hak : a = k
    · subst hak
      by_cases haq : a = q
      · subst haq
        simp [dictExtend, dictGet]
      · have hqa : ¬ (q = a) := fun h => haq h.symm
        simp [dictExtend, dictGet, haq, hqa]
    · by_cases haq : a = q
      · subst haq
        simp [dictExtend, dictGet, hak, fun h => hak h]
      · simp [dictExtend, dictGet, hak, haq,
          dictGet_dictExtend rest k risks q]

/-- The inner detector loop of the analyzer appends, to the bucket of the
requirement id when present, the concatenated contributions of the
detectors, a raising detector contributing the empty list; other buckets are
unchanged. -/
theorem analyze_inner_fold (req : Requirement) :
    ∀ (dets : List Detector) (m : List (String × List Risk)) (q : String),
      dictGet (dets.foldl (analyzeStep none req) m) q =
        if q = req.id then
          (dictGet m q).map (fun v => v ++ detContribution dets req)
        else dictGet m q
  | [], m, q => by
    by_cases h : q = req.id
    · simp only [List.foldl_nil, detContribution, List.flatMap_nil, h,
        if_true]
      cases dictGet m q <;> simp
    · simp [h]
  | det :: dets, m, q => by
    simp only [List.foldl_cons]
    rw [analyze_inner_fold req dets _ q]
    have hstep : dictGet (analyzeStep none req m det) q =
        if q = req.id then
          (dictGet m q).map (fun v => v ++ (det.detect req).getD [])
        else dictGet m q := by
      unfold analyzeStep
      by_cases hr : (det.detect req).getD [] = []
      · rw [hr]
        simp only [ne_eq, not_true_eq_false, if_false, ite_self]
        by_cases h : q = req.id
        · rw [if_pos h]
          cases dictGet m q <;> simp
        · rw [if_neg h]
      · simp only [ne_eq, hr, not_false_eq_true, if_true]
        rw [dictGet_dictExtend m req.id _ q]
    by_cases h : q = req.id
    · rw [if_pos h, hstep, if_pos h]
      cases dictGet m q with
      | none => simp
      | some v =>
        simp only [Option.map_some']
        rw [show detContribution (det :: dets) req =
            (det.detect req).getD [] ++ detContribution dets req from by
          simp [detContribution]]
        rw [List.append_assoc, if_pos h]
    · rw [if_neg h, hstep, if_neg h, if_neg h]

/-- The outer requirement loop of the analyzer: each bucket receives the
concatenated contributions of all requirements with that id, in requirement
order. -/
theorem analyze_outer_fold (dets : List Detector) :
    ∀ (reqs : List Requirement) (m : List (String × List Risk)) (q : String),
      dictGet
          (reqs.foldl (fun m req => dets.foldl (analyzeStep none req) m) m)
          q =
        (dictGet m q).map
          (fun v =>
            v ++ (reqs.filter (fun r => r.id = q)).flatMap
              (fun r => detContribution dets r))
  | [], m, q => by
    simp only [List.foldl_nil, List.filter_nil, List.flatMap_nil]
    cases dictGet m q <;> simp
  | r :: t, m, q => by
    simp only [List.foldl_cons]
    rw [analyze_outer_fold dets t _ q, analyze_inner_fold r dets m q]
    by_cases h : r.id = q
    · rw [if_pos (h.symm), List.filter_cons_of_pos (by simp [h])]
      cases dictGet m q with
      | none => simp
      | some v =>
        simp only [Option.map_some', List.flatMap_cons, List.append_assoc]
    · rw [if_neg (fun h2 => h h2.symm), List.filter_cons_of_neg (by simp [h])]

/-- C6: the analyzer result has an entry for every input requirement, and
the bucket of each present id is exactly the concatenation, over the
requirements with that id and the detectors in order, of each detector
contribution, where a raising detector (detect none) contributes the empty
list; so one raising detector never suppresses the risks of other detectors
on the same requirement or of itself on other requirements. -/
theorem c6_analyzer_isolates_detector_failures (reqs : List Requirement)
    (dets : List Detector) :
    (∀ req, req ∈ reqs →
        (dictGet (analyzeRequirements reqs dets none) req.id).isSome = true) ∧
      (∀ q, dictGet (analyzeRequirements reqs dets none) q =
        if reqs.any (fun r => r.id = q) then
          some ((reqs.filter (fun r => r.id = q)).flatMap
            (fun r => detContribution dets r))
        else none) := by
  have hmain : ∀ q, dictGet (analyzeRequirements reqs dets none) q =
      if reqs.any (fun r => r.id = q) then
        some ((reqs.filter (fun r => r.id = q)).flatMap
          (fun r => detContribution dets r))
      else none := by
    intro q
    unfold analyzeRequirements
    rw [analyze_outer_fold dets reqs _ q]
    rw [dictGet_foldl_insert (fun _ => ([] : List Risk)) reqs [] q]
    by_cases h : reqs.any (fun r => r.id = q) = true
    · simp [h]
    · simp [h, dictGet]
  refine ⟨?_, hmain⟩
  intro req hreq
  rw [hmain req.id]
  have hany : reqs.any (fun r => r.id = req.id) = true := by
    rw [List.any_eq_true]
    exact ⟨req, hreq, by simp⟩
  rw [if_pos hany]
  rfl

/-- C6 witness: the theorem applied to two requirements and two detectors,
the second of which raises on the first requirement; the first requirement
still has an entry holding the risk of the healthy detector. -/
theorem c6_witness :
    (dictGet (analyzeRequirements w6Reqs w6Dets none) ("R001")).isSome =
        true ∧
      dictGet (analyzeRequirements w6Reqs w6Dets none) ("R001") =
          some [w6RiskA] ∧
        dictGet (analyzeRequirements w6Reqs w6Dets none) ("R002") =
          some [w6RiskB, w6RiskC] := by
  refine ⟨(c6_analyzer_isolates_detector_failures w6Reqs w6Dets).1 w6Req1
    (by decide), ?_, ?_⟩
  · rw [(c6_analyzer_isolates_detector_failures w6Reqs w6Dets).2 ("R001")]
    decide
  · rw [(c6_analyzer_isolates_detector_failures w6Reqs w6Dets).2 ("R002")]
    decide

/-- Membership in a conditional singleton list forces equality with the
single element. -/
theorem mem_ite_singleton {c : Prop} [Decidable c] {x y : RiskData}
    (h : y ∈ if c then [x] else ([] : List RiskData)) : y = x := by
  split at h
  · simpa using h
  · simp at h

/-- C9: the traceability detector emits exactly the blanket risk, at the
configured default severity, when none of the three signals is present, and
otherwise exactly one medium severity risk per missing signal; the blanket
risk is never emitted together with the per signal risks. -/
theorem c9_traceability_blanket_or_missing_signals (cfg : TraceConfig)
    (req : Requirement) :
    detectTraceabilityRisks cfg req =
        (if ¬ (hasRequirementId req.text || hasAcceptanceCriteria cfg req.text ||
            hasTestReference cfg req.text) then
          [blanketTraceRisk cfg req.text]
        else
          (if ¬ hasRequirementId req.text then [missingIdRisk req.text]
            else []) ++
            (if ¬ hasAcceptanceCriteria cfg req.text then
              [missingAcRisk req.text] else []) ++
              (if ¬ hasTestReference cfg req.text then
                [missingTestRisk req.text] else [])) ∧
      ((hasRequirementId req.text || hasAcceptanceCriteria cfg req.text ||
          hasTestReference cfg req.text) = true →
        blanketTraceRisk cfg req.text ∉ detectTraceabilityRisks cfg req) ∧
        ((hasRequirementId req.text || hasAcceptanceCriteria cfg req.text ||
            hasTestReference cfg req.text) = false →
          detectTraceabilityRisks cfg req = [blanketTraceRisk cfg req.text]) := by
  refine ⟨rfl, ?_, ?_⟩
  · intro hsig hmem
    unfold detectTraceabilityRisks at hmem
    simp only [hsig, not_true_eq_false, if_false, List.mem_append] at hmem
    rcases hmem with (h | h) | h
    · have hd := congrArg RiskData.description (mem_ite_singleton h)
      simp only [blanketTraceRisk, missingIdRisk] at hd
      exact absurd hd (by decide)
    · have hd := congrArg RiskData.description (mem_ite_singleton h)
      simp only [blanketTraceRisk, missingAcRisk] at hd
      exact absurd hd (by decide)
    · have hd := congrArg RiskData.description (mem_ite_singleton h)
      simp only [blanketTraceRisk, missingTestRisk] at hd
      exact absurd hd (by decide)
  · intro hsig
    unfold detectTraceabilityRisks
    simp [hsig]

/-- C9 witness: a requirement with an identifier signal never receives the
blanket risk, and a requirement with no signal receives exactly the blanket
risk at the configured default severity. -/
theorem c9_witness :
    blanketTraceRisk c9Cfg c9ReqWithId.text ∉
        detectTraceabilityRisks c9Cfg c9ReqWithId ∧
      detectTraceabilityRisks c9Cfg c9ReqNone =
        [blanketTraceRisk c9Cfg c9ReqNone.text] :=
  ⟨(c9_traceability_blanket_or_missing_signals c9Cfg c9ReqWithId).2.1
      (by decide),
   (c9_traceability_blanket_or_missing_signals c9Cfg c9ReqNone).2.2
      (by decide)⟩

/-- Transfer a per line property of the open unit through the option
equality produced when the parser threads its state. -/
theorem unit_hyp_of_lines {u0 : StructUnit} {ty : RequirementType}
    (h0 : ∀ s ∈ u0.lines, s ≠ ("---")) :
    ∀ (u : StructUnit) (t : RequirementType),
      some (u0, ty) = some (u, t) → ∀ s ∈ u.lines, s ≠ ("---") := by
  intro u t h s hs
  injection h with hpair
  have hu : u0 = u := congrArg Prod.fst hpair
  rw [← hu] at hs
  exact h0 s hs

/-- No unit produced by the parser loop contains the separator line of three
dashes: separator lines close units and are dropped, and every line that is
appended was classified as a non separator. -/
theorem parseGo_lines_not_dash :
    ∀ (items : List (Nat × String)) (cur : Option (StructUnit × RequirementType)),
      (∀ u t, cur = some (u, t) → ∀ s ∈ u.lines, s ≠ ("---")) →
      ∀ u ∈ parseGo cur items, ∀ s ∈ u.lines, s ≠ ("---") := by
  intro items
  induction items with
  | nil =>
    intro cur hcur u hu s hs
    cases cur with
    | none => simp [parseGo, closeAll] at hu
    | some ut =>
      obtain ⟨u0, t0⟩ := ut
      simp only [parseGo, closeAll, List.mem_singleton] at hu
      subst hu
      exact hcur u t0 rfl s hs
  | cons it rest ih =>
    obtain ⟨n, raw⟩ := it
    intro cur hcur u hu s hs
    have hclose : ∀ u' ∈ closeAll cur, ∀ s' ∈ u'.lines, s' ≠ ("---") := by
      intro u' hu' s' hs'
      cases cur with
      | none => simp [closeAll] at hu'
      | some ut =>
        obtain ⟨u0, t0⟩ := ut
        simp only [closeAll, List.mem_singleton] at hu'
        subst hu'
        exact hcur u' t0 rfl s' hs'
    by_cases hline : pyStrip raw = ""
    · simp only [parseGo, if_pos hline] at hu
      exact ih cur hcur u hu s hs
    · cases hdet : detectRequirementType (pyStrip raw) with
      | separator =>
        simp only [parseGo, if_neg hline, hdet] at hu
        rcases List.mem_append.mp hu with h | h
        · exact hclose u h s hs
        · exact ih none (fun u' t' h' => nomatch h') u h s hs
      | header =>
        simp only [parseGo, if_neg hline, hdet] at hu
        rcases List.mem_append.mp hu with h | h
        · exact hclose u h s hs
        · exact ih none (fun u' t' h' => nomatch h') u h s hs
      | user_story =>
        have hnd : pyStrip raw ≠ ("---") := by
          intro hc
          rw [hc] at hdet
          exact absurd hdet (by decide)
        have hnew0 : ∀ s' ∈ (newUserStoryUnit (pyStrip raw) n).lines,
            s' ≠ ("---") := by
          intro s' hs'
          simp only [newUserStoryUnit, List.mem_singleton] at hs'
          rw [hs']
          exact hnd
        cases cur with
        | none =>
          simp only [parseGo, if_neg hline, hdet] at hu
          exact ih _ (unit_hyp_of_lines hnew0) u hu s hs
        | some ut =>
          obtain ⟨u0, t0⟩ := ut
          have happ0 : ∀ s' ∈ (appendToUnit u0 (pyStrip raw) n).lines,
              s' ≠ ("---") := by
            intro s' hs'
            simp only [appendToUnit, List.mem_append, List.mem_singleton] at hs'
            rcases hs' with h | h
            · exact hcur u0 t0 rfl s' h
            · rw [h]
              exact hnd
          simp only [parseGo, if_neg hline, hdet] at hu
          by_cases ht0 : t0 = RequirementType.user_story
          · rw [if_pos ht0] at hu
            exact ih _ (unit_hyp_of_lines happ0) u hu s hs
          · rw [if_neg ht0] at hu
            rcases List.mem_cons.mp hu with h | h
            · subst h
              exact hcur u t0 rfl s hs
            · exact ih _ (unit_hyp_of_lines hnew0) u h s hs
      | functional =>
        have hnd : pyStrip raw ≠ ("---") := by
          intro hc
          rw [hc] at hdet
          exact absurd hdet (by decide)
        have hstmt0 : ∀ s' ∈ (newStmtUnit ("functional") (pyStrip raw) n).lines,
            s' ≠ ("---") := by
          intro s' hs'
          simp only [newStmtUnit, List.mem_singleton] at hs'
          rw [hs']
          exact hnd
        simp only [parseGo, if_neg hline, hdet] at hu
        rcases List.mem_append.mp hu with h | h
        · exact hclose u h s hs
        · exact ih _ (unit_hyp_of_lines hstmt0) u h s hs
      | non_functional =>
        have hnd : pyStrip raw ≠ ("---") := by
          intro hc
          rw [hc] at hdet
          exact absurd hdet (by decide)
        have hstmt0 : ∀ s' ∈
            (newStmtUnit ("non_functional") (pyStrip raw) n).lines,
            s' ≠ ("---") := by
          intro s' hs'
          simp only [newStmtUnit, List.mem_singleton] at hs'
          rw [hs']
          exact hnd
        simp only [parseGo, if_neg hline, hdet] at hu
        rcases List.mem_append.mp hu with h | h
        · exact hclose u h s hs
        · exact ih _ (unit_hyp_of_lines hstmt0) u h s hs
      | unknown =>
        have hnd : pyStrip raw ≠ ("---") := by
          intro hc
          rw [hc] at hdet
          exact absurd hdet (by decide)
        cases cur with
        | none =>
          simp only [parseGo, if_neg hline, hdet] at hu
          exact ih none (fun u' t' h' => nomatch h') u hu s hs
        | some ut =>
          obtain ⟨u0, t0⟩ := ut
          have happ0 : ∀ s' ∈ (appendToUnit u0 (pyStrip raw) n).lines,
              s' ≠ ("---") := by
            intro s' hs'
            simp only [appendToUnit, List.mem_append, List.mem_singleton] at hs'
            rcases hs' with h | h
            · exact hcur u0 t0 rfl s' h
            · rw [h]
              exact hnd
          simp only [parseGo, if_neg hline, hdet] at hu
          by_cases hcont : looksLikeContinuation (pyStrip raw) t0 = true
          · rw [if_pos hcont] at hu
            exact ih _ (unit_hyp_of_lines happ0) u hu s hs
          · rw [if_neg hcont] at hu
            rcases List.mem_cons.mp hu with h | h
            · subst h
              exact hcur u t0 rfl s hs
            · exact ih none (fun u' t' h' => nomatch h') u h s hs

/-- C7: the three user story lines are grouped into exactly one user story
unit with line numbers one to three; no unit produced by the structure
detector ever contains the separator line of three dashes; and a unit whose
text is three dots is removed by the valid requirement filter. -/
theorem c7_structure_detector_grouping :
    parseStructuredRequirements c7Lines = [c7Unit] ∧
      (∀ (lines : List String) (u : StructUnit) (s : String),
          u ∈ parseStructuredRequirements lines → s ∈ u.lines →
            s ≠ ("---")) ∧
        (∀ (rs : List StructUnit) (r : StructUnit),
          r ∈ filterValidRequirements rs → r.text ≠ ("...")) := by
  refine ⟨by decide, ?_, ?_⟩
  · intro lines u s hu hs
    exact parseGo_lines_not_dash (enumerate1 1 lines) none
      (fun u' t' h' => nomatch h') u hu s hs
  · intro rs r hr htext
    have hk := (List.mem_filter.mp hr).2
    unfold keepValid at hk
    rw [htext] at hk
    rw [if_pos (by decide)] at hk
    exact absurd hk (by decide)

/-- C7 witness: the grouping theorem applied at the concrete user story
lines and at a concrete filtered list, discharging the membership
hypotheses by evaluation. -/
theorem c7_witness :
    (("As a user,") : String) ≠ ("---") ∧ c7Kept.text ≠ ("...") :=
  ⟨c7_structure_detector_grouping.2.1 c7Lines c7Unit ("As a user,")
      (by decide) (by decide),
   c7_structure_detector_grouping.2.2 [c7Kept] c7Kept (by decide)⟩
